import Mathlib

/-!
Shallow embedding of `src/training/convert_deepfashion2.py`, the DeepFashion2
to YOLO annotation converter. Python floats are modelled as rationals (`ℚ`):
every arithmetic operation the converter performs on the concrete inputs used
below is exact in both domains. Fixed-precision `%.6f` formatting is modelled
by rounding the rational to the nearest multiple of `10⁻⁶` (ties up) and
printing the six fractional digits. The filesystem is modelled abstractly:
a source annotation file is a record carrying its stem, the decoded image
dimensions, flags for "the paired image exists" / "the image is decodable",
and the parsed JSON items; a written output is a (stem, label lines) pair
standing for the copied image plus the written label file.
-/

set_option autoImplicit false

namespace DeepFashion2

section
attribute [local semireducible] Rat.mul Rat.add Rat.sub Rat.inv

/-- `CATEGORY_MAPPING` from the source (lines 15-29): the hand-authored map
from the 13 DeepFashion2 category names to the 6-class vocabulary, as an
association list looked up like the Python dict. -/
def CATEGORY_MAPPING : List (String × ℕ) :=
  [("short sleeve top", 0),
   ("long sleeve top", 0),
   ("short sleeve outwear", 4),
   ("long sleeve outwear", 4),
   ("vest", 0),
   ("sling", 0),
   ("shorts", 1),
   ("trousers", 1),
   ("skirt", 1),
   ("short sleeve dress", 3),
   ("long sleeve dress", 3),
   ("vest dress", 3),
   ("sling dress", 3)]

/-- `CLASSES` from the source (line 31). -/
def CLASSES : List String := ["top", "bottom", "shoes", "dress", "outerwear", "accessory"]

/-- Source lines 97-100: pixel box to normalized center-box. -/
def convertBox (x1 y1 x2 y2 img_width img_height : ℚ) : ℚ × ℚ × ℚ × ℚ :=
  (((x1 + x2) / 2) / img_width,
   ((y1 + y2) / 2) / img_height,
   (x2 - x1) / img_width,
   (y2 - y1) / img_height)

/-- Source line 103: `all(0 <= v <= 1 for v in [x_center, y_center, width, height])`. -/
def boundsOK (b : ℚ × ℚ × ℚ × ℚ) : Bool :=
  [b.1, b.2.1, b.2.2.1, b.2.2.2].all fun v => decide (0 ≤ v) && decide (v ≤ 1)

/-- Rounding step of `%.6f`: the integer nearest `q * 10⁶` (ties away from
zero for the nonnegative values at hand), computed on the reduced fraction. -/
def round6 (q : ℚ) : ℤ :=
  Int.fdiv (2000000 * q.num + (q.den : ℤ)) (2 * (q.den : ℤ))

/-- Left-pad the fractional digits to width 6. -/
def pad6 (n : ℕ) : String :=
  let s := toString n
  String.mk (List.replicate (6 - s.length) '0') ++ s

/-- Model of Python `f'{q:.6f}'` for the nonnegative rationals the converter
formats: integer part, a dot, six fractional digits. -/
def format6 (q : ℚ) : String :=
  let n : ℤ := round6 q
  toString (n / 1000000) ++ "." ++ pad6 (n % 1000000).toNat

/-- Source line 104: one label line
`f'{class_id} {x_center:.6f} {y_center:.6f} {width:.6f} {height:.6f}'`. -/
def formatLine (class_id : ℕ) (x_center y_center width height : ℚ) : String :=
  toString class_id ++ " " ++ format6 x_center ++ " " ++ format6 y_center ++ " "
    ++ format6 width ++ " " ++ format6 height

/-- One parsed instance descriptor: `item_data.get('category_name', '')`
is modelled by an `Option String` defaulted to `""`, and
`item_data.get('bounding_box', [])` by a list of numbers (the dynamic-typing
refinement `ItemDyn` below lifts this to arbitrary JSON values). -/
structure ItemData where
  category_name : Option String
  bounding_box : List ℚ
deriving DecidableEq

/-- Source lines 83-105, one instance: resolve the category (dropping unknown
ones), require exactly 4 box values, convert, validate bounds; `some` returns
the `(class_id, x_center, y_center, width, height)` tuple that line 104
formats, `none` means the instance is dropped. -/
def processInstance (img_width img_height : ℚ) (item_data : ItemData) :
    Option (ℕ × ℚ × ℚ × ℚ × ℚ) :=
  let category := item_data.category_name.getD ""
  match CATEGORY_MAPPING.lookup category with
  | none => none
  | some class_id =>
    match item_data.bounding_box with
    | [x1, y1, x2, y2] =>
      let b := convertBox x1 y1 x2 y2 img_width img_height
      if boundsOK b then some (class_id, b.1, b.2.1, b.2.2.1, b.2.2.2)
      else none
    | _ => none

/-- Source lines 77-105, one annotation document: iterate the items, skip the
reserved `source` key, emit one formatted label line per retained instance. -/
def processImage (img_width img_height : ℚ) (data : List (String × ItemData)) :
    List String :=
  data.filterMap fun p =>
    if p.1 = "source" then none
    else
      match processInstance img_width img_height p.2 with
      | some (cid, xc, yc, bw, bh) => some (formatLine cid xc yc bw bh)
      | none => none

/-- One source annotation file together with everything the converter reads
about it: the base name (`anno_file.stem`), whether the paired
`image/<stem>.jpg` exists (line 66), whether `PIL.Image.open` succeeds
(lines 70-75), the decoded dimensions, and the parsed JSON items. -/
structure SourceImage where
  stem : String
  img_width : ℚ
  img_height : ℚ
  imageExists : Bool
  decodable : Bool
  anno : List (String × ItemData)
deriving DecidableEq

/-- One written output of the converter: the copied image plus the label file
(both created together under `if yolo_annotations:` on lines 107-119),
identified by the stem, with the label file content as its lines. -/
structure OutputEntry where
  stem : String
  lines : List String
deriving DecidableEq

/-- Source lines 59-119 for one annotation file, as a pure decision:
`none` when the image is missing, the image is undecodable, or every instance
was dropped; `some` carries the written label lines. -/
def processAnnoFile (src : SourceImage) : Option OutputEntry :=
  if src.imageExists = false then none
  else if src.decodable = false then none
  else
    let lines := processImage src.img_width src.img_height src.anno
    if lines.isEmpty then none else some ⟨src.stem, lines⟩

/-- The mutable state of a conversion run: outputs written so far in the
current split, and the two global counters `total_images` and
`total_annotations` (lines 44-45, 105, 119). -/
structure RunState where
  outs : List OutputEntry
  total_images : ℕ
  total_annots : ℕ
deriving DecidableEq

/-- The body of the `for anno_file in tqdm(anno_files)` loop (lines 59-119):
skip missing or unreadable images, accumulate formatted lines, bump
`total_annotations` once per retained instance, and when at least one line
was produced copy the image, write the label file, and bump `total_images`. -/
def stepFile (st : RunState) (src : SourceImage) : RunState :=
  if src.imageExists = false then st
  else if src.decodable = false then st
  else
    let lines := processImage src.img_width src.img_height src.anno
    let st1 : RunState := ⟨st.outs, st.total_images, st.total_annots + lines.length⟩
    if lines.isEmpty then st1
    else ⟨st1.outs ++ [⟨src.stem, lines⟩], st1.total_images + 1, st1.total_annots⟩

/-- The per-split loop over the annotation files of one split. -/
def runSplit (st : RunState) (files : List SourceImage) : RunState :=
  files.foldl stepFile st

/-- One split directory of the source dataset: whether
`<source_dir>/<split>/annos` exists (line 52), and the annotation files the
glob enumerates when it does. -/
structure SplitDir where
  dirExists : Bool
  files : List SourceImage
deriving DecidableEq

/-- The `data.yaml` manifest written on lines 121-139. -/
structure Manifest where
  path : String
  train : String
  val : String
  nc : ℕ
  names : List String
  total_images : ℕ
  total_annots : ℕ
deriving DecidableEq

/-- The outcome of one full `convert_deepfashion2_to_yolo` invocation. -/
structure ConvertResult where
  trainOuts : List OutputEntry
  valOuts : List OutputEntry
  warnings : List String
  manifest : Manifest
deriving DecidableEq

/-- Source lines 33-139, whole run: process the `train` split then the
`validation` split (each skipped with a warning when its `annos` directory
is missing, line 52-54), carrying the two counters across splits, then write
`data.yaml` from the final counters. `os.path.abspath(output_dir)` is
modelled as the given output path itself. -/
def convert_deepfashion2_to_yolo (trainSplit valSplit : SplitDir)
    (output_dir : String) : ConvertResult :=
  let w1 : List String :=
    if trainSplit.dirExists then []
    else ["Warning: train annos not found, skipping train split"]
  let st1 : RunState :=
    if trainSplit.dirExists then runSplit ⟨[], 0, 0⟩ trainSplit.files
    else ⟨[], 0, 0⟩
  let w2 : List String :=
    if valSplit.dirExists then []
    else ["Warning: validation annos not found, skipping validation split"]
  let st2 : RunState :=
    if valSplit.dirExists then
      runSplit ⟨[], st1.total_images, st1.total_annots⟩ valSplit.files
    else ⟨[], st1.total_images, st1.total_annots⟩
  { trainOuts := st1.outs
    valOuts := st2.outs
    warnings := w1 ++ w2
    manifest :=
      { path := output_dir
        train := "images/train"
        val := "images/val"
        nc := CLASSES.length
        names := CLASSES
        total_images := st2.total_images
        total_annots := st2.total_annots } }

/-- A JSON value as `json.load` can put into `bounding_box`: a number
(JSON numbers and booleans, both numeric for Python arithmetic), a string,
or any other non-numeric value (`null`, arrays, objects). -/
inductive JVal where
  | num (q : ℚ)
  | str (s : String)
  | other
deriving DecidableEq

/-- Python `a + b` on two JSON values: numbers add, strings concatenate,
everything else raises `TypeError` (`none`). -/
def pyAdd : JVal → JVal → Option JVal
  | .num a, .num b => some (.num (a + b))
  | .str a, .str b => some (.str (a ++ b))
  | _, _ => none

/-- Python `a - b`: defined only on numbers, otherwise `TypeError`. -/
def pySub : JVal → JVal → Option JVal
  | .num a, .num b => some (.num (a - b))
  | _, _ => none

/-- Python `v / d` for a numeric `d`: defined only when `v` is a number,
otherwise `TypeError` (string and list division do not exist). -/
def pyDivNum : JVal → ℚ → Option ℚ
  | .num a, d => some (a / d)
  | _, _ => none

/-- An instance descriptor before any typing assumption: `bounding_box` may
hold arbitrary JSON values. -/
structure ItemDyn where
  category_name : Option String
  bounding_box : List JVal
deriving DecidableEq

/-- Source lines 83-105 for one instance, without assuming the four box
values are numeric: `.error ()` is an uncaught `TypeError` escaping
`convert_deepfashion2_to_yolo` (the loop has no try/except around the
arithmetic), `.ok none` a dropped instance, `.ok (some t)` a retained one. -/
def processInstanceDyn (img_width img_height : ℚ) (item_data : ItemDyn) :
    Except Unit (Option (ℕ × ℚ × ℚ × ℚ × ℚ)) :=
  let category := item_data.category_name.getD ""
  match CATEGORY_MAPPING.lookup category with
  | none => Except.ok none
  | some class_id =>
    match item_data.bounding_box with
    | [x1, y1, x2, y2] =>
      match pyAdd x1 x2 with
      | none => Except.error ()
      | some sx =>
        match pyDivNum sx 2 with
        | none => Except.error ()
        | some cx =>
          match pyAdd y1 y2 with
          | none => Except.error ()
          | some sy =>
            match pyDivNum sy 2 with
            | none => Except.error ()
            | some cy =>
              match pySub x2 x1 with
              | none => Except.error ()
              | some dx =>
                match pyDivNum dx img_width with
                | none => Except.error ()
                | some bw =>
                  match pySub y2 y1 with
                  | none => Except.error ()
                  | some dy =>
                    match pyDivNum dy img_height with
                    | none => Except.error ()
                    | some bh =>
                      let b := (cx / img_width, cy / img_height, bw, bh)
                      if boundsOK b then
                        Except.ok (some (class_id, b.1, b.2.1, b.2.2.1, b.2.2.2))
                      else Except.ok none
    | _ => Except.ok none

/-- Source lines 77-105 for one annotation document in the dynamic model:
an uncaught `TypeError` in any instance aborts the whole iteration. -/
def processImageDyn (img_width img_height : ℚ) :
    List (String × ItemDyn) → Except Unit (List String)
  | [] => Except.ok []
  | (key, it) :: rest =>
    if key = "source" then processImageDyn img_width img_height rest
    else
      match processInstanceDyn img_width img_height it with
      | .error e => Except.error e
      | .ok none => processImageDyn img_width img_height rest
      | .ok (some (cid, xc, yc, bw, bh)) =>
        (processImageDyn img_width img_height rest).map
          fun ls => formatLine cid xc yc bw bh :: ls

/-- Embed a numerically-typed item into the dynamic model. -/
def liftItem (it : ItemData) : ItemDyn :=
  ⟨it.category_name, it.bounding_box.map JVal.num⟩

/-- On numeric boxes the dynamic model never raises and agrees with
`processInstance`: the pure model is the numeric fragment of the dynamic
one. -/
theorem processInstanceDyn_lift (w h : ℚ) (it : ItemData) :
    processInstanceDyn w h (liftItem it) = Except.ok (processInstance w h it) := by
  rcases it with ⟨cat, bb⟩
  cases hc : CATEGORY_MAPPING.lookup (cat.getD "") with
  | none => simp [processInstanceDyn, processInstance, liftItem, hc]
  | some cid =>
    match bb with
    | [] => simp [processInstanceDyn, processInstance, liftItem, hc]
    | [a] => simp [processInstanceDyn, processInstance, liftItem, hc]
    | [a, b] => simp [processInstanceDyn, processInstance, liftItem, hc]
    | [a, b, c] => simp [processInstanceDyn, processInstance, liftItem, hc]
    | [a, b, c, d] =>
      simp [processInstanceDyn, processInstance, liftItem, hc,
        pyAdd, pySub, pyDivNum, convertBox]
      split <;> rfl
    | a :: b :: c :: d :: e :: rest =>
      simp [processInstanceDyn, processInstance, liftItem, hc]

/-- Total number of label lines across a list of written outputs. -/
def labelLineCount (outs : List OutputEntry) : ℕ :=
  (outs.map fun e => e.lines.length).sum

/-- Looking up a key held by no pair of an association list yields `none`. -/
theorem lookup_eq_none_of_forall_ne {l : List (String × ℕ)} {s : String}
    (h : ∀ p ∈ l, p.1 ≠ s) : l.lookup s = none := by
  induction l with
  | nil => rfl
  | cons p rest ih =>
    have hp : s ≠ p.1 := fun hs => h p (List.mem_cons_self p rest) hs.symm
    have hb : (s == p.1) = false := beq_eq_false_iff_ne.mpr hp
    simp only [List.lookup, hb]
    exact ih fun q hq => h q (List.mem_cons_of_mem p hq)

/-- A successful association-list lookup returns the value of some pair. -/
theorem lookup_mem_pair {l : List (String × ℕ)} {s : String} {v : ℕ}
    (h : l.lookup s = some v) : ∃ p ∈ l, p.2 = v := by
  induction l with
  | nil => simp [List.lookup] at h
  | cons p rest ih =>
    by_cases hb : (s == p.1) = true
    · simp only [List.lookup, hb] at h
      exact ⟨p, List.mem_cons_self p rest, Option.some_inj.mp h⟩
    · have hb2 : (s == p.1) = false := Bool.eq_false_iff.mpr hb
      simp only [List.lookup, hb2] at h
      obtain ⟨q, hq, hv⟩ := ih h
      exact ⟨q, List.mem_cons_of_mem p hq, hv⟩

/-- The bounds check succeeds exactly when all four values lie in `[0, 1]`. -/
theorem boundsOK_iff (b : ℚ × ℚ × ℚ × ℚ) :
    boundsOK b = true ↔
      (0 ≤ b.1 ∧ b.1 ≤ 1) ∧ (0 ≤ b.2.1 ∧ b.2.1 ≤ 1)
      ∧ (0 ≤ b.2.2.1 ∧ b.2.2.1 ≤ 1) ∧ (0 ≤ b.2.2.2 ∧ b.2.2.2 ≤ 1) := by
  simp [boundsOK, and_assoc]

/-- The per-document iteration distributes over list append. -/
theorem processImage_append (w h : ℚ) (l1 l2 : List (String × ItemData)) :
    processImage w h (l1 ++ l2) = processImage w h l1 ++ processImage w h l2 :=
  List.filterMap_append l1 l2 _

/-- `stepFile` in terms of the pure per-file decision `processAnnoFile`. -/
theorem stepFile_eq (st : RunState) (src : SourceImage) :
    stepFile st src =
      match processAnnoFile src with
      | none => st
      | some e => ⟨st.outs ++ [e], st.total_images + 1, st.total_annots + e.lines.length⟩ := by
  by_cases h1 : src.imageExists = false
  · simp [stepFile, processAnnoFile, h1]
  · by_cases h2 : src.decodable = false
    · simp [stepFile, processAnnoFile, h1, h2]
    · by_cases h3 : (processImage src.img_width src.img_height src.anno).isEmpty
      · have h4 : processImage src.img_width src.img_height src.anno = [] :=
          List.isEmpty_iff.mp h3
        simp [stepFile, processAnnoFile, h1, h2, h3, h4]
      · simp [stepFile, processAnnoFile, h1, h2, h3]

/-- The split loop appends exactly the retained files and advances both
counters by the number of retained files and retained lines. -/
theorem runSplit_eq (files : List SourceImage) (st : RunState) :
    runSplit st files =
      ⟨st.outs ++ files.filterMap processAnnoFile,
       st.total_images + (files.filterMap processAnnoFile).length,
       st.total_annots + labelLineCount (files.filterMap processAnnoFile)⟩ := by
  induction files generalizing st with
  | nil => simp [runSplit, labelLineCount]
  | cons src rest ih =>
    have hstep := stepFile_eq st src
    cases hpa : processAnnoFile src with
    | none =>
      rw [hpa] at hstep
      simp only [runSplit, List.foldl_cons] at *
      rw [hstep, ih, List.filterMap_cons, hpa]
    | some e =>
      rw [hpa] at hstep
      simp only [runSplit, List.foldl_cons] at *
      rw [hstep, ih, List.filterMap_cons, hpa]
      simp [labelLineCount, List.append_assoc]
      omega

/-- Dropped instances do not interrupt the dynamic per-document iteration. -/
theorem processImageDyn_skip (w h : ℚ) (k : String) (it : ItemDyn)
    (hok : processInstanceDyn w h it = Except.ok none)
    (pre post : List (String × ItemDyn)) :
    processImageDyn w h (pre ++ (k, it) :: post) = processImageDyn w h (pre ++ post) := by
  induction pre with
  | nil =>
    by_cases hk : k = "source" <;> simp [processImageDyn, hk, hok]
  | cons p rest ih =>
    rcases p with ⟨pk, pit⟩
    by_cases hk2 : pk = "source"
    · simp [processImageDyn, hk2, ih]
    · cases hpi : processInstanceDyn w h pit with
      | error e => simp [processImageDyn, hk2, hpi]
      | ok o =>
        rcases o with _ | ⟨cid, xc, yc, bw, bh⟩ <;>
          simp [processImageDyn, hk2, hpi, ih]

/-- C1: for every pixel box `[x1,y1,x2,y2]` on a `w × h` image the converter
computes the normalized center-box exactly as `x_center=((x1+x2)/2)/w`,
`y_center=((y1+y2)/2)/h`, `width=(x2-x1)/w`, `height=(y2-y1)/h`, and the
annotation `item1 ↦ (category "short sleeve top", box [10,20,110,220])` on a
200×400 image yields exactly the label line
`0 0.300000 0.300000 0.500000 0.500000`. -/
theorem C1_normalization_formula_and_scenario (x1 y1 x2 y2 w h : ℚ) :
    convertBox x1 y1 x2 y2 w h
      = (((x1 + x2) / 2) / w, ((y1 + y2) / 2) / h, (x2 - x1) / w, (y2 - y1) / h)
    ∧ processImage 200 400 [("item1", ⟨some "short sleeve top", [10, 20, 110, 220]⟩)]
      = ["0 0.300000 0.300000 0.500000 0.500000"] :=
  ⟨rfl, by decide⟩

/-- C2: for `0 ≤ x1 < x2 ≤ w` and `0 ≤ y1 < y2 ≤ h`, converting to the
normalized center-box and applying the stated inverse transform reconstructs
the original pixel box; in the rational model the reconstruction is exact,
hence in particular within any floating-point tolerance. -/
theorem C2_box_roundtrip (x1 y1 x2 y2 w h : ℚ)
    (hx1 : 0 ≤ x1) (hx12 : x1 < x2) (hx2w : x2 ≤ w)
    (hy1 : 0 ≤ y1) (hy12 : y1 < y2) (hy2h : y2 ≤ h) :
    ((convertBox x1 y1 x2 y2 w h).1 - (convertBox x1 y1 x2 y2 w h).2.2.1 / 2) * w = x1
    ∧ ((convertBox x1 y1 x2 y2 w h).2.1 - (convertBox x1 y1 x2 y2 w h).2.2.2 / 2) * h = y1
    ∧ ((convertBox x1 y1 x2 y2 w h).1 + (convertBox x1 y1 x2 y2 w h).2.2.1 / 2) * w = x2
    ∧ ((convertBox x1 y1 x2 y2 w h).2.1 + (convertBox x1 y1 x2 y2 w h).2.2.2 / 2) * h = y2 := by
  have hw : (0 : ℚ) < w := lt_of_lt_of_le (lt_of_le_of_lt hx1 hx12) hx2w
  have hh : (0 : ℚ) < h := lt_of_lt_of_le (lt_of_le_of_lt hy1 hy12) hy2h
  have hw0 : w ≠ 0 := ne_of_gt hw
  have hh0 : h ≠ 0 := ne_of_gt hh
  refine ⟨?_, ?_, ?_, ?_⟩ <;>
  · simp only [convertBox]
    field_simp
    ring

/-- Witness for C2 at the spec scenario box `[10,20,110,220]` on 200×400. -/
theorem C2_box_roundtrip_witness :
    (0 : ℚ) ≤ 10 ∧ (10 : ℚ) < 110 ∧ (110 : ℚ) ≤ 200
    ∧ (0 : ℚ) ≤ 20 ∧ (20 : ℚ) < 220 ∧ (220 : ℚ) ≤ 400
    ∧ (((convertBox 10 20 110 220 200 400).1
          - (convertBox 10 20 110 220 200 400).2.2.1 / 2) * 200 = 10
        ∧ ((convertBox 10 20 110 220 200 400).2.1
          - (convertBox 10 20 110 220 200 400).2.2.2 / 2) * 400 = 20
        ∧ ((convertBox 10 20 110 220 200 400).1
          + (convertBox 10 20 110 220 200 400).2.2.1 / 2) * 200 = 110
        ∧ ((convertBox 10 20 110 220 200 400).2.1
          + (convertBox 10 20 110 220 200 400).2.2.2 / 2) * 400 = 220) :=
  ⟨by norm_num, by norm_num, by norm_num, by norm_num, by norm_num, by norm_num,
   C2_box_roundtrip 10 20 110 220 200 400 (by norm_num) (by norm_num) (by norm_num)
     (by norm_num) (by norm_num) (by norm_num)⟩

/-- C3: an instance whose four computed normalized values do not all lie in
`[0,1]` (some value negative or exceeding 1) is dropped: `processInstance`
returns `none`, so no label line is emitted for it anywhere and the
`total_annotations` counter (which counts exactly the emitted lines, see
`stepFile`) is not advanced for it; moreover the document iteration simply
moves past it. -/
theorem C3_out_of_bounds_instance_dropped (w h : ℚ) (it : ItemData)
    (x1 y1 x2 y2 : ℚ) (hbb : it.bounding_box = [x1, y1, x2, y2])
    (hout : (convertBox x1 y1 x2 y2 w h).1 < 0 ∨ 1 < (convertBox x1 y1 x2 y2 w h).1
      ∨ (convertBox x1 y1 x2 y2 w h).2.1 < 0 ∨ 1 < (convertBox x1 y1 x2 y2 w h).2.1
      ∨ (convertBox x1 y1 x2 y2 w h).2.2.1 < 0 ∨ 1 < (convertBox x1 y1 x2 y2 w h).2.2.1
      ∨ (convertBox x1 y1 x2 y2 w h).2.2.2 < 0 ∨ 1 < (convertBox x1 y1 x2 y2 w h).2.2.2) :
    processInstance w h it = none
    ∧ ∀ (k : String) (rest : List (String × ItemData)),
        processImage w h ((k, it) :: rest) = processImage w h rest := by
  have hko : boundsOK (convertBox x1 y1 x2 y2 w h) = false := by
    rw [Bool.eq_false_iff]
    intro htrue
    have hall := (boundsOK_iff _).mp htrue
    rcases hout with h1 | h1 | h1 | h1 | h1 | h1 | h1 | h1 <;> linarith [hall.1.1,
      hall.1.2, hall.2.1.1, hall.2.1.2, hall.2.2.1.1, hall.2.2.1.2,
      hall.2.2.2.1, hall.2.2.2.2]
  have hnone : processInstance w h it = none := by
    rcases it with ⟨cat, bb⟩
    simp only at hbb
    subst hbb
    cases hc : CATEGORY_MAPPING.lookup (cat.getD "") <;>
      simp [processInstance, hc, hko]
  refine ⟨hnone, fun k rest => ?_⟩
  by_cases hk : k = "source" <;> simp [processImage, hk, hnone]

/-- Witness for C3: box `[0,0,300,100]` on a 200×400 image has normalized
width 1.5 > 1 and is dropped. -/
theorem C3_out_of_bounds_instance_dropped_witness :
    (⟨some "vest", [0, 0, 300, 100]⟩ : ItemData).bounding_box = [0, 0, 300, 100]
    ∧ (1 : ℚ) < (convertBox 0 0 300 100 200 400).2.2.1
    ∧ processInstance 200 400 ⟨some "vest", [0, 0, 300, 100]⟩ = none
    ∧ processImage 200 400 [("item1", ⟨some "vest", [0, 0, 300, 100]⟩)]
      = processImage 200 400 [] :=
  ⟨rfl, by decide,
   (C3_out_of_bounds_instance_dropped 200 400 ⟨some "vest", [0, 0, 300, 100]⟩
      0 0 300 100 rfl (by right; right; right; right; right; left; decide)).1,
   (C3_out_of_bounds_instance_dropped 200 400 ⟨some "vest", [0, 0, 300, 100]⟩
      0 0 300 100 rfl (by right; right; right; right; right; left; decide)).2
      "item1" []⟩

/-- C10: an instance descriptor lacking the `category_name` field entirely is
treated as the empty-string category, which is not in `CATEGORY_MAPPING`, so
the instance is silently dropped. -/
theorem C10_missing_category_name_dropped (w h : ℚ) (it : ItemData)
    (hc : it.category_name = none) : processInstance w h it = none := by
  rcases it with ⟨cat, bb⟩
  simp only at hc
  subst hc
  have h0 : CATEGORY_MAPPING.lookup "" = none := by decide
  simp [processInstance, h0]

/-- Witness for C10 at an otherwise valid instance. -/
theorem C10_missing_category_name_dropped_witness :
    (⟨none, [10, 20, 110, 220]⟩ : ItemData).category_name = none
    ∧ processInstance 200 400 ⟨none, [10, 20, 110, 220]⟩ = none :=
  ⟨rfl, C10_missing_category_name_dropped 200 400 ⟨none, [10, 20, 110, 220]⟩ rfl⟩

/-- A retained instance's class id is a value of `CATEGORY_MAPPING`. -/
theorem processInstance_class_of_some (w h : ℚ) (it : ItemData) (cid : ℕ)
    (xc yc bw bh : ℚ) (hp : processInstance w h it = some (cid, xc, yc, bw, bh)) :
    ∃ p ∈ CATEGORY_MAPPING, p.2 = cid := by
  rcases it with ⟨cat, bb⟩
  simp only [processInstance] at hp
  cases hc : CATEGORY_MAPPING.lookup (cat.getD "") with
  | none => rw [hc] at hp; simp at hp
  | some v =>
    rw [hc] at hp
    have hv : v = cid := by
      match bb, hp with
      | [], hp => simp at hp
      | [a], hp => simp at hp
      | [a, b], hp => simp at hp
      | [a, b, c], hp => simp at hp
      | [a, b, c, d], hp =>
        simp only at hp
        split at hp
        · exact (Prod.mk.injEq _ _ _ _ ▸ Option.some_inj.mp hp).1
        · simp at hp
      | a :: b :: c :: d :: e :: rest, hp => simp at hp
    obtain ⟨p, hpm, hpv⟩ := lookup_mem_pair hc
    exact ⟨p, hpm, hv ▸ hpv⟩

/-- C4: an annotation file is materialized in the output (image copy plus
label file, which lines 107-119 create together) exactly when its image
exists, the image decodes, and at least one instance line was produced; in
particular a file all of whose instances are dropped yields no output. -/
theorem C4_output_written_iff_lines (src : SourceImage) :
    (processImage src.img_width src.img_height src.anno = [] → processAnnoFile src = none)
    ∧ ((processAnnoFile src).isSome = true ↔
        src.imageExists = true ∧ src.decodable = true
        ∧ processImage src.img_width src.img_height src.anno ≠ [])
    ∧ (∀ e : OutputEntry, processAnnoFile src = some e →
        e.stem = src.stem ∧ e.lines = processImage src.img_width src.img_height src.anno) := by
  by_cases h1 : src.imageExists = false
  · simp [processAnnoFile, h1]
  · have h1t : src.imageExists = true := by simpa using h1
    by_cases h2 : src.decodable = false
    · simp [processAnnoFile, h1, h2, h1t]
    · have h2t : src.decodable = true := by simpa using h2
      by_cases h3 : (processImage src.img_width src.img_height src.anno).isEmpty
      · have h4 := List.isEmpty_iff.mp h3
        simp [processAnnoFile, h1, h2, h3, h4, h1t, h2t]
      · have h4 : processImage src.img_width src.img_height src.anno ≠ [] := by
          simpa [List.isEmpty_iff] using h3
        simp only [processAnnoFile, h1t, h2t]
        simp [h3, h4]

/-- Witness for C4: a lone unmapped-category instance produces no lines and
the file is not written. -/
theorem C4_output_written_iff_lines_witness :
    processImage 200 400 [("item1", ⟨some "bag", [10, 20, 110, 220]⟩)] = []
    ∧ processAnnoFile ⟨"000001", 200, 400, true, true,
        [("item1", ⟨some "bag", [10, 20, 110, 220]⟩)]⟩ = none :=
  ⟨by decide,
   (C4_output_written_iff_lines ⟨"000001", 200, 400, true, true,
      [("item1", ⟨some "bag", [10, 20, 110, 220]⟩)]⟩).1 (by decide)⟩

/-- C5: after a full run the manifest's images-retained count equals the
number of outputs written across both splits, and annotations-retained
equals the total number of label lines across them. -/
theorem C5_manifest_counts (trainSplit valSplit : SplitDir) (output_dir : String) :
    (convert_deepfashion2_to_yolo trainSplit valSplit output_dir).manifest.total_images
      = (convert_deepfashion2_to_yolo trainSplit valSplit output_dir).trainOuts.length
        + (convert_deepfashion2_to_yolo trainSplit valSplit output_dir).valOuts.length
    ∧ (convert_deepfashion2_to_yolo trainSplit valSplit output_dir).manifest.total_annots
      = labelLineCount (convert_deepfashion2_to_yolo trainSplit valSplit output_dir).trainOuts
        + labelLineCount
            (convert_deepfashion2_to_yolo trainSplit valSplit output_dir).valOuts := by
  by_cases ht : trainSplit.dirExists <;> by_cases hv : valSplit.dirExists <;>
    simp [convert_deepfashion2_to_yolo, ht, hv, runSplit_eq, labelLineCount]

/-- C6: every key of `CATEGORY_MAPPING` maps into the 6-class vocabulary,
no key maps to 2 ("shoes") or 5 ("accessory"), an unmapped category string
makes `processInstance` drop the instance rather than crash, and every class
id a retained instance carries (hence every class id that can open an
emitted label line) is `< 6` and is neither 2 nor 5. -/
theorem C6_category_mapping_sound :
    (∀ p ∈ CATEGORY_MAPPING, p.2 < 6)
    ∧ (∀ p ∈ CATEGORY_MAPPING, p.2 ≠ 2 ∧ p.2 ≠ 5)
    ∧ (∀ s : String, (∀ p ∈ CATEGORY_MAPPING, p.1 ≠ s) →
        ∀ (w h : ℚ) (bb : List ℚ), processInstance w h ⟨some s, bb⟩ = none)
    ∧ (∀ (w h : ℚ) (it : ItemData) (cid : ℕ) (xc yc bw bh : ℚ),
        processInstance w h it = some (cid, xc, yc, bw, bh) →
        cid < 6 ∧ cid ≠ 2 ∧ cid ≠ 5) := by
  refine ⟨by decide, by decide, ?_, ?_⟩
  · intro s hs w h bb
    have h0 : CATEGORY_MAPPING.lookup s = none := lookup_eq_none_of_forall_ne hs
    simp [processInstance, h0]
  · intro w h it cid xc yc bw bh hp
    obtain ⟨p, hpm, hpv⟩ := processInstance_class_of_some w h it cid xc yc bw bh hp
    have hall : ∀ q ∈ CATEGORY_MAPPING, q.2 < 6 ∧ q.2 ≠ 2 ∧ q.2 ≠ 5 := by decide
    exact hpv ▸ hall p hpm

/-- Witness for C6: the unmapped category "bag" is dropped, and the retained
scenario instance carries class id 0. -/
theorem C6_category_mapping_sound_witness :
    processInstance 200 400 ⟨some "bag", [10, 20, 110, 220]⟩ = none
    ∧ ((0 : ℕ) < 6 ∧ (0 : ℕ) ≠ 2 ∧ (0 : ℕ) ≠ 5) :=
  ⟨C6_category_mapping_sound.2.2.1 "bag" (by decide) 200 400 [10, 20, 110, 220],
   C6_category_mapping_sound.2.2.2 200 400 ⟨some "short sleeve top", [10, 20, 110, 220]⟩
     0 (3/10) (3/10) (1/2) (1/2) (by decide)⟩

/-- C7 counterexample: a `bounding_box` of exactly 4 string values passes the
`len(bbox) != 4` guard, and the ensuing arithmetic raises an uncaught
`TypeError` (`.error ()`) instead of dropping the instance (`.ok none`): the
claim's "not exactly 4 numeric values → dropped, no crash" fails on
non-numeric values. -/
theorem C7_nonnumeric_box_raises :
    processInstanceDyn 200 400
        ⟨some "vest", [JVal.str "a", JVal.str "b", JVal.str "c", JVal.str "d"]⟩
      = Except.error ()
    ∧ processInstanceDyn 200 400
        ⟨some "vest", [JVal.str "a", JVal.str "b", JVal.str "c", JVal.str "d"]⟩
      ≠ Except.ok none :=
  ⟨rfl, fun hcontra => Except.noConfusion hcontra⟩

/-- C7 (amended): an instance whose `bounding_box` has an element count
other than 4 is dropped with no label line and no crash, and processing of
the remaining instances of the same annotation document continues; a
4-element box with non-numeric values instead raises an uncaught TypeError
(see the counterexample). -/
theorem C7_wrong_arity_box_dropped (w h : ℚ) (it : ItemDyn)
    (hlen : it.bounding_box.length ≠ 4) :
    processInstanceDyn w h it = Except.ok none
    ∧ ∀ (k : String) (pre post : List (String × ItemDyn)),
        processImageDyn w h (pre ++ (k, it) :: post)
          = processImageDyn w h (pre ++ post) := by
  have hok : processInstanceDyn w h it = Except.ok none := by
    rcases it with ⟨cat, bb⟩
    simp only at hlen
    cases hc : CATEGORY_MAPPING.lookup (cat.getD "") with
    | none => simp [processInstanceDyn, hc]
    | some cid =>
      match bb, hlen with
      | [], _ => simp [processInstanceDyn, hc]
      | [a], _ => simp [processInstanceDyn, hc]
      | [a, b], _ => simp [processInstanceDyn, hc]
      | [a, b, c], _ => simp [processInstanceDyn, hc]
      | [a, b, c, d], hlen => simp at hlen
      | a :: b :: c :: d :: e :: rest, _ => simp [processInstanceDyn, hc]
  exact ⟨hok, fun k pre post => processImageDyn_skip w h k it hok pre post⟩

/-- Witness for the amended C7 at a 3-element box. -/
theorem C7_wrong_arity_box_dropped_witness :
    (⟨some "vest", [JVal.num 1, JVal.num 2, JVal.num 3]⟩ : ItemDyn).bounding_box.length ≠ 4
    ∧ processInstanceDyn 200 400 ⟨some "vest", [JVal.num 1, JVal.num 2, JVal.num 3]⟩
        = Except.ok none
    ∧ processImageDyn 200 400
        [("item2", ⟨some "vest", [JVal.num 1, JVal.num 2, JVal.num 3]⟩)]
      = processImageDyn 200 400 [] :=
  ⟨by decide,
   (C7_wrong_arity_box_dropped 200 400
      ⟨some "vest", [JVal.num 1, JVal.num 2, JVal.num 3]⟩ (by decide)).1,
   (C7_wrong_arity_box_dropped 200 400
      ⟨some "vest", [JVal.num 1, JVal.num 2, JVal.num 3]⟩ (by decide)).2 "item2" [] []⟩

/-- C8: when neither split's `annos` directory exists (the case of a source
path that does not exist at all), the run still completes: each split is
skipped with one warning, no output is written, and the manifest is still
produced reporting zero images and zero annotations. -/
theorem C8_missing_source_degenerate_run (trainSplit valSplit : SplitDir)
    (output_dir : String)
    (ht : trainSplit.dirExists = false) (hv : valSplit.dirExists = false) :
    (convert_deepfashion2_to_yolo trainSplit valSplit output_dir).warnings.length = 2
    ∧ (convert_deepfashion2_to_yolo trainSplit valSplit output_dir).trainOuts = []
    ∧ (convert_deepfashion2_to_yolo trainSplit valSplit output_dir).valOuts = []
    ∧ (convert_deepfashion2_to_yolo trainSplit valSplit output_dir).manifest.total_images = 0
    ∧ (convert_deepfashion2_to_yolo trainSplit valSplit output_dir).manifest.total_annots
        = 0 := by
  simp [convert_deepfashion2_to_yolo, ht, hv]

/-- Witness for C8 on two absent split directories. -/
theorem C8_missing_source_degenerate_run_witness :
    (⟨false, []⟩ : SplitDir).dirExists = false
    ∧ (convert_deepfashion2_to_yolo ⟨false, []⟩ ⟨false, []⟩ "out").warnings.length = 2
    ∧ (convert_deepfashion2_to_yolo ⟨false, []⟩ ⟨false, []⟩ "out").manifest.total_images = 0
    ∧ (convert_deepfashion2_to_yolo ⟨false, []⟩ ⟨false, []⟩ "out").manifest.total_annots
        = 0 :=
  ⟨rfl,
   (C8_missing_source_degenerate_run ⟨false, []⟩ ⟨false, []⟩ "out" rfl rfl).1,
   (C8_missing_source_degenerate_run ⟨false, []⟩ ⟨false, []⟩ "out" rfl rfl).2.2.2.1,
   (C8_missing_source_degenerate_run ⟨false, []⟩ ⟨false, []⟩ "out" rfl rfl).2.2.2.2⟩

/-- C9: the converter is a deterministic function of its inputs — two runs on
identical, unchanged inputs (the same split contents, up to the contractually
insignificant directory-enumeration order, and the same output path) produce
the same written outputs with byte-identical label lines and an identical
manifest, whose path field depends only on the output location. -/
theorem C9_deterministic (t1 t2 v1 v2 : SplitDir) (o1 o2 : String)
    (htd : t1.dirExists = t2.dirExists) (htf : t1.files.Perm t2.files)
    (hvd : v1.dirExists = v2.dirExists) (hvf : v1.files.Perm v2.files)
    (ho : o1 = o2) :
    (convert_deepfashion2_to_yolo t1 v1 o1).trainOuts.Perm
      (convert_deepfashion2_to_yolo t2 v2 o2).trainOuts
    ∧ (convert_deepfashion2_to_yolo t1 v1 o1).valOuts.Perm
      (convert_deepfashion2_to_yolo t2 v2 o2).valOuts
    ∧ (convert_deepfashion2_to_yolo t1 v1 o1).manifest
      = (convert_deepfashion2_to_yolo t2 v2 o2).manifest := by
  subst ho
  have hpt := htf.filterMap processAnnoFile
  have hpv := hvf.filterMap processAnnoFile
  have hlt := hpt.length_eq
  have hlv := hpv.length_eq
  have hst : labelLineCount (t1.files.filterMap processAnnoFile)
      = labelLineCount (t2.files.filterMap processAnnoFile) := by
    simp only [labelLineCount]
    exact List.Perm.sum_eq (List.Perm.map (fun e => e.lines.length) hpt)
  have hsv : labelLineCount (v1.files.filterMap processAnnoFile)
      = labelLineCount (v2.files.filterMap processAnnoFile) := by
    simp only [labelLineCount]
    exact List.Perm.sum_eq (List.Perm.map (fun e => e.lines.length) hpv)
  by_cases ht : t1.dirExists <;> by_cases hv : v1.dirExists <;>
  · have ht2 : t2.dirExists = t1.dirExists := htd.symm
    have hv2 : v2.dirExists = v1.dirExists := hvd.symm
    simp only [convert_deepfashion2_to_yolo, ht2, hv2, ht, hv, runSplit_eq,
      if_true, if_false, Manifest.mk.injEq]
    simp only [List.nil_append]
    refine ⟨?_, ?_, ?_⟩
    · first
      | exact hpt
      | exact List.Perm.refl _
    · first
      | exact hpv
      | exact List.Perm.refl _
    · simp_all

/-- Witness for C9 on concrete identical inputs. -/
theorem C9_deterministic_witness :
    (convert_deepfashion2_to_yolo ⟨true, []⟩ ⟨false, []⟩ "out").trainOuts.Perm
      (convert_deepfashion2_to_yolo ⟨true, []⟩ ⟨false, []⟩ "out").trainOuts
    ∧ (convert_deepfashion2_to_yolo ⟨true, []⟩ ⟨false, []⟩ "out").manifest
      = (convert_deepfashion2_to_yolo ⟨true, []⟩ ⟨false, []⟩ "out").manifest :=
  ⟨(C9_deterministic ⟨true, []⟩ ⟨true, []⟩ ⟨false, []⟩ ⟨false, []⟩ "out" "out"
      rfl (List.Perm.refl _) rfl (List.Perm.refl _) rfl).1,
   (C9_deterministic ⟨true, []⟩ ⟨true, []⟩ ⟨false, []⟩ ⟨false, []⟩ "out" "out"
      rfl (List.Perm.refl _) rfl (List.Perm.refl _) rfl).2.2⟩

end

end DeepFashion2
